import Mathlib

/-!
# Verification of the FoodBankAnalysis pipeline

Shallow embedding of the data-cleaning, aggregation, anomaly-detection and
forecasting-comparison logic of the FoodBankAnalysis repository
(`Statewide/py/food_bank_analysis.py`, `Statewide/py/prediction.py`,
`Statewide/py/google_colab_script.py`, `Advanced_Visuals/py/advanced_analysis.py`,
`Advanced_Visuals/py/find_examples.py`), together with proofs settling the
frozen claims C1–C10 about it.

Modelling conventions:
* Dates are month indices (`Int`, month `m` of year `y` is `12*y + m - 1`);
  every date in play is at monthly granularity after `%b-%y` parsing and
  `asfreq('MS')`.
* Float values are modelled by `ℚ`.  A float `NaN` cell is `Option.none`.
  Where IEEE `NaN`-comparison semantics matter (mean of an empty slice,
  z-score with zero variance) the embedding reproduces the float behaviour
  explicitly and says so in a comment.
* Text cells are `List Char`.
* `sort_values('Date')` is modelled by `List.insertionSort` on the date key
  (a comparison sort; only the date order of the result is relied upon).
* Third-party statistical fits (`seasonal_decompose`, `SARIMAX`,
  `ExponentialSmoothing`) are black boxes per the spec; where a claim needs
  one it is an explicit function parameter.
-/

namespace FoodBank

/-! ## 1. Numeric-cell cleaning

Source: `food_bank_analysis.load_and_clean_data` (lines 71–79) and
`prediction.load_data` (lines 53–58):

    df[col].astype(str).str.replace(',', '').str.replace('*', '')
          .str.replace('%', '').str.strip()
    pd.to_numeric(df[col], errors='coerce')
-/

/-- Whitespace recognised by `str.strip` (ASCII fragment). -/
def isWsChar (c : Char) : Bool :=
  c == ' ' || c == '\t' || c == '\n' || c == '\r'

/-- Remove leading whitespace. -/
def dropLeftWs (l : List Char) : List Char := l.dropWhile isWsChar

/-- Remove trailing whitespace. -/
def dropRightWs (l : List Char) : List Char := (l.reverse.dropWhile isWsChar).reverse

/-- `str.strip()`: remove leading and trailing whitespace. -/
def trimWs (l : List Char) : List Char := dropLeftWs (dropRightWs l)

/-- The three `str.replace(x, '')` calls: delete every comma, asterisk and
percent sign (replacement of distinct single characters by the empty string
is deletion, in any order). -/
def stripArtifacts (l : List Char) : List Char :=
  l.filter (fun c => !(c == ',' || c == '*' || c == '%'))

/-- Numeric value of a digit character. -/
def digitVal (c : Char) : ℕ := c.toNat - 48

def allDigits (l : List Char) : Bool := l.all (·.isDigit)

def natOfDigits (l : List Char) : ℕ := l.foldl (fun a c => 10 * a + digitVal c) 0

/-- Unsigned decimal literal: digits, optionally with one decimal point,
at least one digit overall (`"1,234"``→ no — after artifact removal`,
`"1234"`, `"12.5"`, `"12."`, `".5"` parse; `"."`, `""`, `"1.2.3"`, `"12a"`
do not).  Models the decimal forms accepted by `pd.to_numeric`; exponent
and `inf`/`nan` spellings play no role in the claims. -/
def parseUnsigned (l : List Char) : Option ℚ :=
  let ip := l.takeWhile (· != '.')
  match l.dropWhile (· != '.') with
  | [] => if !ip.isEmpty && allDigits ip then some ((natOfDigits ip : ℚ)) else none
  | _ :: fp =>
    if (!ip.isEmpty || !fp.isEmpty) && allDigits ip && allDigits fp then
      some ((natOfDigits ip : ℚ) + (natOfDigits fp : ℚ) / (10 : ℚ) ^ fp.length)
    else none

/-- Optional single leading sign, then an unsigned decimal literal. -/
def parseSigned (l : List Char) : Option ℚ :=
  match l with
  | '-' :: t => (parseUnsigned t).map (fun q => -q)
  | '+' :: t => parseUnsigned t
  | _ => parseUnsigned l

/-- `pd.to_numeric(cell, errors='coerce')` on one text cell: like Python's
`float`, tolerant of surrounding whitespace; failure is `none` (`NaN`). -/
def toNumeric (l : List Char) : Option ℚ := parseSigned (trimWs l)

/-- The source's cleaning pipeline for one text-typed numeric cell:
delete `,` `*` `%`, `str.strip()`, then coerce with `pd.to_numeric`. -/
def cleanNumericCell (l : List Char) : Option ℚ := toNumeric (trimWs (stripArtifacts l))

/-- Modelled from the spec (claim C8 wording): "the numeric parse of the
string with those characters and trailing whitespace removed" — delete the
artifact characters and only the *trailing* whitespace, then parse. -/
def specCleanNumericCell (l : List Char) : Option ℚ := toNumeric (dropRightWs (stripArtifacts l))

/-! ## 2. Loader / aggregator

Source: `prediction.load_data` (lines 60–68), identical logic in
`food_bank_analysis.plot_statewide_trend` (lines 104–114) and
`google_colab_script.plot_statewide_trend` (lines 84–92):

    statewide = df_clean[df_clean['County'] == 'Statewide'].copy()
    if statewide.empty:
         statewide = df_clean[df_clean['County'] != 'Statewide']
                       .groupby('Date').sum().reset_index()
    return statewide.sort_values('Date')
-/

/-- One cleaned input row: parsed month index, region label, CalFresh
Households value, Unemployment Monthly value (`none` = `NaN`; rows with an
unparseable date or household count were already dropped by
`dropna(subset=['Date', 'CalFresh Households'])`). -/
structure CleanRow where
  date : Int
  county : String
  hh : ℚ
  unemp : Option ℚ
deriving DecidableEq

/-- One aggregated (per-period) row of the statewide series. -/
structure AggRow where
  date : Int
  hh : ℚ
  unemp : Option ℚ
deriving DecidableEq

/-- The sentinel region label. -/
def sentinelCounty : String := "Statewide"

/-- `df_clean[df_clean['County'] == 'Statewide']`. -/
def statewideRows (rows : List CleanRow) : List CleanRow :=
  rows.filter (fun r => r.county == sentinelCounty)

/-- `df_clean[df_clean['County'] != 'Statewide']`. -/
def countyRows (rows : List CleanRow) : List CleanRow :=
  rows.filter (fun r => r.county != sentinelCounty)

/-- The distinct `Date` keys of `groupby('Date')`, in ascending order
(pandas sorts group keys). -/
def groupDates (rows : List CleanRow) : List Int :=
  List.insertionSort (· ≤ ·) (rows.map (·.date)).dedup

/-- Sum of the households column over the rows of one period
(`groupby('Date').sum()` on `CalFresh Households`). -/
def sumHH (rows : List CleanRow) (d : Int) : ℚ :=
  ((rows.filter (fun r => r.date == d)).map (·.hh)).sum

/-- Sum of the unemployment column over the rows of one period; pandas
`sum()` skips `NaN` and sums an all-`NaN` group to `0`. -/
def sumUnemp (rows : List CleanRow) (d : Int) : ℚ :=
  ((rows.filter (fun r => r.date == d)).filterMap (·.unemp)).sum

/-- `groupby('Date').sum().reset_index()`: one output row per distinct
period, every numeric column summed. -/
def groupSumRows (rows : List CleanRow) : List AggRow :=
  (groupDates rows).map (fun d => ⟨d, sumHH rows d, some (sumUnemp rows d)⟩)

/-- A sentinel row used as-is (projection to the series columns). -/
def aggRowOf (r : CleanRow) : AggRow := ⟨r.date, r.hh, r.unemp⟩

/-- `sort_values('Date')`. -/
def sortByDate (rows : List AggRow) : List AggRow :=
  List.insertionSort (fun a b => a.date ≤ b.date) rows

/-- The aggregation step of `prediction.load_data` / `plot_statewide_trend`:
if *any* sentinel row exists the sentinel rows are used, otherwise the
non-sentinel rows are summed per period; the result is sorted by date. -/
def load_data (rows : List CleanRow) : List AggRow :=
  let sw := statewideRows rows
  if sw.isEmpty then sortByDate (groupSumRows (countyRows rows))
  else sortByDate (sw.map aggRowOf)

/-- Modelled from the spec (claim C1 wording): the claimed *per-period*
rule — for each period of the data, use the sentinel row of that period if
one exists, and otherwise the sum of the period's non-sentinel rows. -/
def perPeriodClaimAgg (rows : List CleanRow) : List AggRow :=
  (List.insertionSort (· ≤ ·) (rows.map (·.date)).dedup).map (fun d =>
    match (statewideRows rows).find? (fun r => r.date == d) with
    | some r => aggRowOf r
    | none => ⟨d, sumHH (countyRows rows) d, some (sumUnemp (countyRows rows) d)⟩)

/-! ## 3. Spike analysis

Source: `food_bank_analysis.analyze_spikes` (lines 143–152), identical in
`google_colab_script.analyze_spikes` (lines 113–121):

    df['MoM_Change'] = df['CalFresh Households'].pct_change()
    df['MoM_Zscore'] = (df['MoM_Change'] - df['MoM_Change'].mean())
                         / df['MoM_Change'].std()
    spikes = df[df['MoM_Zscore'] > 2]
-/

/-- `pct_change()` without its leading `NaN`: the month-over-month changes
`(v[t] - v[t-1]) / v[t-1]` for `t = 1 .. n-1`. -/
def mom_changes (l : List ℚ) : List ℚ :=
  (l.zip l.tail).map (fun p => (p.2 - p.1) / p.1)

/-- The `MoM_Change` column at position `t` of the series: `none` (`NaN`)
at position `0`, otherwise the `t`-th change. -/
def momChangeAt (l : List ℚ) (t : ℕ) : Option ℚ :=
  if t = 0 then none else (mom_changes l)[t - 1]?

/-- `Series.mean()` (only ever applied to the `NaN`-free change list, since
pandas `mean` skips `NaN`).  Division by zero in `ℚ` makes the mean of an
empty list `0`. -/
def meanQ (l : List ℚ) : ℚ := l.sum / l.length

/-- Square of `Series.std()` (sample variance, `ddof=1`), kept in `ℚ`.
For a single observation the float result is `NaN` (`0/0`) and never
satisfies a `>` comparison; `ℚ`'s `x / 0 = 0` gives `0` here, which the
spike test below likewise never flags, so the embedding agrees. -/
def sampleVarQ (l : List ℚ) : ℚ :=
  ((l.map (fun c => (c - meanQ l) ^ 2)).sum) / ((l.length : ℚ) - 1)

/-- Decidable form of the source's spike test
`(c - mean) / std > 2` with `std = √variance`: for `variance ≥ 0` it is
equivalent to `0 < variance ∧ 0 < c - mean ∧ 4·variance < (c - mean)²`
(proved in `zscoreExceeds2_iff` below; a zero variance gives `NaN`/`±inf`
in float, never `> 2`). -/
def zscoreExceeds2 (c m v : ℚ) : Bool :=
  decide (0 < v) && decide (0 < c - m) && decide (4 * v < (c - m) ^ 2)

/-- `analyze_spikes`: the positions (in the aggregated series) whose
month-over-month change the source flags as a spike. -/
def analyze_spikes (l : List ℚ) : List ℕ :=
  (((mom_changes l).enum.filter
      (fun p => zscoreExceeds2 p.2 (meanQ (mom_changes l)) (sampleVarQ (mom_changes l)))).map
    (fun p => p.1 + 1))

/-! ## 4. Train/test split and naive baseline

Source: `prediction.train_test_split_ts` (lines 70–77) and the naive model
of `prediction.run_models` (lines 139–143):

    train = df.iloc[:-test_months]
    test = df.iloc[-test_months:]
    y_pred_naive = [train.iloc[-1]] * len(test)
-/

/-- `train = df.iloc[:-m]`, `test = df.iloc[-m:]` (for the `m = 6 ≥ 1`
the source always passes, Python's negative slicing is `take`/`drop` at
`length - m`). -/
def train_test_split_ts {α : Type} (df : List α) (test_months : ℕ) : List α × List α :=
  (df.take (df.length - test_months), df.drop (df.length - test_months))

/-- The naive baseline: `[train.iloc[-1]] * len(test)` (`train.iloc[-1]`
presupposes a nonempty history; `getD 0` is never exercised under the
claims' `length > 6` hypothesis). -/
def y_pred_naive (train test : List ℚ) : List ℚ :=
  List.replicate test.length (train.getLast?.getD 0)

/-! ## 5. Structural break, gap filling, final forecast

Source: `prediction.run_models` (lines 109–131 and 192–198), identical
break logic in `google_colab_script.run_predictions` (lines 232–241):

    pre_break = df[df['Date'] < break_date]['CalFresh Households'].mean()
    post_break = df[df['Date'] >= break_date]['CalFresh Households'].mean()
    if post_break > 1.5 * pre_break: model_df = df[df['Date'] >= break_date]
    else: model_df = df.copy()
    model_df = model_df.set_index('Date')['CalFresh Households']
    model_df = model_df.asfreq('MS').interpolate()
    ...
    final_model = SARIMAX(model_df, ...).fit(disp=False)
    future_forecast = final_model.forecast(3)
-/

/-- `pd.to_datetime('2019-03-01')` as a month index (`12*y + m - 1`). -/
def breakDate : Int := 2019 * 12 + 2

/-- `df[df['Date'] < break_date]`, the series as (month, households) pairs. -/
def preBreakRows (rows : List (Int × ℚ)) : List (Int × ℚ) :=
  rows.filter (fun r => decide (r.1 < breakDate))

/-- `df[df['Date'] >= break_date]`. -/
def postBreakRows (rows : List (Int × ℚ)) : List (Int × ℚ) :=
  rows.filter (fun r => decide (breakDate ≤ r.1))

/-- The structural-break check.  The two nonemptiness guards reproduce the
float semantics: the `mean()` of an empty slice is `NaN`, and
`post_break > 1.5 * pre_break` is `False` whenever either side is `NaN`,
so the `else` branch (keep everything) is taken. -/
def structuralBreakFilter (rows : List (Int × ℚ)) : List (Int × ℚ) :=
  if !(preBreakRows rows).isEmpty && !(postBreakRows rows).isEmpty &&
      decide ((3 / 2 : ℚ) * meanQ ((preBreakRows rows).map (·.2))
                < meanQ ((postBreakRows rows).map (·.2)))
  then postBreakRows rows
  else rows

/-- The month indices `a, a+1, …, b`. -/
def monthRange (a b : Int) : List Int :=
  (List.range (b - a + 1).toNat).map (fun i => a + i)

/-- The value of the series at month `d` after `asfreq('MS').interpolate()`:
the stored value if month `d` is present, otherwise the linear interpolation
between the closest surrounding known months (for a date-sorted series; a
month after the last known one keeps the last value, matching pandas'
forward fill, though `asfreq` never asks for one). -/
def valueAt (rows : List (Int × ℚ)) (d : Int) : ℚ :=
  match rows.find? (fun r => r.1 == d) with
  | some r => r.2
  | none =>
    match ((rows.filter (fun r => decide (r.1 < d))).getLast?,
           (rows.filter (fun r => decide (d < r.1))).head?) with
    | (some p, some n) => p.2 + (n.2 - p.2) * (((d - p.1 : Int) : ℚ) / ((n.1 - p.1 : Int) : ℚ))
    | (some p, none) => p.2
    | (none, _) => 0

/-- The successful path of `asfreq('MS').interpolate()`: one row for every
month from the first known month to the last, gaps filled linearly.  On an
index with a *duplicated* timestamp pandas `asfreq` does not produce a
value — it raises an uncaught `ValueError`; that raising path is modelled
explicitly in `analyze_seasonality`, the place where a claim depends on
it. -/
def asfreqInterp (rows : List (Int × ℚ)) : List (Int × ℚ) :=
  match rows.head?, rows.getLast? with
  | some f, some l => (monthRange f.1 l.1).map (fun d => (d, valueAt rows d))
  | _, _ => []

/-- `model_df` of `run_models`: break-filtered, then made evenly monthly. -/
def run_models_series (rows : List (Int × ℚ)) : List (Int × ℚ) :=
  asfreqInterp (structuralBreakFilter rows)

/-- The series handed to the final `SARIMAX(model_df, …)` refit. -/
def run_models_final_fit_input (rows : List (Int × ℚ)) : List (Int × ℚ) :=
  run_models_series rows

/-- The month index of a series' last observation. -/
def lastDate (s : List (Int × ℚ)) : Int := ((s.getLast?).map (·.1)).getD 0

/-- The month indices a statsmodels `forecast(h)` call on a series ending
at `lastDate s` predicts: the `h` months immediately after the series. -/
def forecastDates (s : List (Int × ℚ)) (h : ℕ) : List Int :=
  (List.range h).map (fun i => lastDate s + 1 + i)

/-- `final_model.forecast(3)`: the fitted SARIMA model is a black box
(`sarimaForecast series horizon` = its forecast values); the source fits it
on the whole `model_df` and asks for 3 future periods. -/
def run_models_future_forecast (sarimaForecast : List (Int × ℚ) → ℕ → List ℚ)
    (rows : List (Int × ℚ)) : List (Int × ℚ) :=
  (forecastDates (run_models_series rows) 3).zip
    (sarimaForecast (run_models_series rows) 3)

/-! ## 6. Seasonal decomposition gate

Source: `food_bank_analysis.analyze_seasonality` (lines 182–195), identical
in `google_colab_script.analyze_seasonality` (lines 146–151):

    df_ts = df.set_index('Date').asfreq('MS')
    df_ts['CalFresh Households'] = df_ts['CalFresh Households'].interpolate()
    if len(df_ts) < 24:
        print("Warning: Not enough data ...")
        return
    try:
        decomp = seasonal_decompose(df_ts['CalFresh Households'], ...)

The `asfreq('MS')` call sits *outside* the `try` (which starts only at the
`seasonal_decompose` call), and `analyze_seasonality` is invoked from
`main` with no handler around it: on an index with a duplicated timestamp,
`asfreq` raises an uncaught `ValueError` ("cannot reindex on an axis with
duplicate labels") before the `len < 24` gate is ever reached.
-/

/-- Outcome of `analyze_seasonality`: the uncaught `ValueError` that
`asfreq('MS')` raises on a duplicated timestamp (nothing catches it — the
`try/except` only wraps the later `seasonal_decompose` call), or the
insufficient-data message (and no decomposition), or the gap-filled series
handed to the black-box `seasonal_decompose` call. -/
inductive SeasonalityResult where
  | valueError : SeasonalityResult
  | insufficient : SeasonalityResult
  | decomposed : List (Int × ℚ) → SeasonalityResult
deriving DecidableEq

/-- `analyze_seasonality` up to the decomposition call: first
`asfreq('MS')` — which raises on a duplicated timestamp — then the
`len < 24` gate on the gap-filled series.  (`asfreqInterp` computes the
successful reindex-and-interpolate path; the raising path is modelled here,
where the claim turns on it.) -/
def analyze_seasonality (rows : List (Int × ℚ)) : SeasonalityResult :=
  if (rows.map (fun r => r.1)).Nodup then
    if (asfreqInterp rows).length < 24 then SeasonalityResult.insufficient
    else SeasonalityResult.decomposed (asfreqInterp rows)
  else SeasonalityResult.valueError

/-! ## 7. Healthy-store ratio

Source: `advanced_analysis.analyze_swamp_density` (lines 209–211), identical
in `find_examples.find_examples` (lines 17–18):

    cc_df.apply(lambda row: row['numerator'] / row['denominator']
                              if row['denominator'] > 0 else 0, axis=1)
-/

/-- The per-tract healthy-store ratio with its zero-denominator guard. -/
def Healthy_Ratio (numerator denominator : ℚ) : ℚ :=
  if 0 < denominator then numerator / denominator else 0

/-! ## Helper lemmas -/

instance : IsTotal AggRow (fun a b => a.date ≤ b.date) :=
  ⟨fun a b => Int.le_total a.date b.date⟩

instance : IsTrans AggRow (fun a b => a.date ≤ b.date) :=
  ⟨fun _ _ _ h h' => le_trans h h'⟩

theorem mem_sortByDate {a : AggRow} {l : List AggRow} : a ∈ sortByDate l ↔ a ∈ l :=
  (List.perm_insertionSort _ l).mem_iff

/-! ## Claim C3: split and naive baseline -/

/-- Claim C3: for a modelling series of more than 6 observations, the
holdout is exactly the last 6 observations (history ++ holdout is the whole
series and the holdout has length 6), the history is everything earlier,
and the naive model predicts the last history value for all 6 holdout
periods. -/
theorem c3_naive_holdout (l : List ℚ) (h : 6 < l.length) :
    (train_test_split_ts l 6).1 ++ (train_test_split_ts l 6).2 = l ∧
    (train_test_split_ts l 6).2.length = 6 ∧
    (train_test_split_ts l 6).1.length = l.length - 6 ∧
    ∃ v, (train_test_split_ts l 6).1.getLast? = some v ∧
      y_pred_naive (train_test_split_ts l 6).1 (train_test_split_ts l 6).2 =
        List.replicate 6 v := by
  have hte : (train_test_split_ts l 6).2 = l.drop (l.length - 6) := rfl
  have hlen2 : (train_test_split_ts l 6).2.length = 6 := by
    rw [hte, List.length_drop]; omega
  have hlen1 : (train_test_split_ts l 6).1.length = l.length - 6 := by
    show (l.take (l.length - 6)).length = l.length - 6
    rw [List.length_take]; omega
  refine ⟨List.take_append_drop _ _, hlen2, hlen1, ?_⟩
  have hne : (train_test_split_ts l 6).1 ≠ [] := by
    intro hc
    rw [hc] at hlen1
    simp at hlen1
    omega
  obtain ⟨v, hv⟩ := Option.isSome_iff_exists.mp (List.getLast?_isSome.mpr hne)
  refine ⟨v, hv, ?_⟩
  unfold y_pred_naive
  rw [hv, hlen2]
  rfl

/-- Witness for `c3_naive_holdout` at a concrete 7-element series. -/
theorem c3_naive_holdout_witness :
    (train_test_split_ts ([10, 20, 30, 40, 50, 60, 70] : List ℚ) 6).2.length = 6 :=
  (c3_naive_holdout [10, 20, 30, 40, 50, 60, 70] (by decide)).2.1

/-! ## Claim C4: structural-break check -/

/-- Claim C4: the structural-break check partitions the series at the
fixed reference month 2019-03; the pre-reference observations are all
discarded exactly when the post-reference mean of the target metric is
strictly greater than 1.5 times the pre-reference mean, and otherwise the
whole series is kept (stated for series where both sides of the reference
date are inhabited, so that both means are defined;
`structuralBreakFilter`'s guards reproduce the float `NaN` behaviour
otherwise, under which the whole series is likewise kept). -/
theorem c4_structural_break (rows : List (Int × ℚ))
    (hpre : preBreakRows rows ≠ []) (hpost : postBreakRows rows ≠ []) :
    (preBreakRows rows ++ postBreakRows rows).Perm rows ∧
    ((3 / 2 : ℚ) * meanQ ((preBreakRows rows).map (·.2)) <
        meanQ ((postBreakRows rows).map (·.2)) →
      structuralBreakFilter rows = postBreakRows rows) ∧
    (¬ (3 / 2 : ℚ) * meanQ ((preBreakRows rows).map (·.2)) <
        meanQ ((postBreakRows rows).map (·.2)) →
      structuralBreakFilter rows = rows) := by
  have hpre' : (preBreakRows rows).isEmpty = false := by
    rw [← Bool.not_eq_true, List.isEmpty_iff]; exact hpre
  have hpost' : (postBreakRows rows).isEmpty = false := by
    rw [← Bool.not_eq_true, List.isEmpty_iff]; exact hpost
  refine ⟨?_, ?_, ?_⟩
  · have hcompl : postBreakRows rows =
        rows.filter (fun r => !(decide (r.1 < breakDate))) := by
      apply List.filter_congr
      intro r _
      simp [← decide_not, decide_eq_decide, Int.not_lt]
    rw [hcompl]
    exact List.filter_append_perm _ rows
  · intro hlt
    unfold structuralBreakFilter
    rw [if_pos (by simp [hpre', hpost', hlt])]
  · intro hnlt
    unfold structuralBreakFilter
    rw [if_neg (by simp [hpre', hpost', hnlt])]

/-- Witness for `c4_structural_break`: a series whose post-break mean is
100 times the pre-break mean is truncated to its post-break part. -/
theorem c4_structural_break_witness :
    structuralBreakFilter [(breakDate - 1, 1), (breakDate, 100)] =
      postBreakRows [(breakDate - 1, 1), (breakDate, 100)] :=
  (c4_structural_break [(breakDate - 1, 1), (breakDate, 100)]
    (by norm_num [preBreakRows, postBreakRows, breakDate])
    (by norm_num [preBreakRows, postBreakRows, breakDate])).2.1
    (by norm_num [preBreakRows, postBreakRows, breakDate, meanQ])

/-! ## Claim C5: seasonal-decomposition gate -/

/-- A two-observation series with a duplicated month: exactly the
(month, households) series that `load_data` hands onward when the input
holds two sentinel rows for one period (the dataset `exC7` below), so the
pipeline itself can feed it to `analyze_seasonality`. -/
def exC5 : List (Int × ℚ) := [(0, 1), (0, 2)]

/-- Counterexample to claim C5 as stated: `exC5` is far shorter than 24
observations, is produced by the aggregation itself, and on it the
analysis raises the uncaught `ValueError` of `asfreq('MS')` — it does not
return the insufficient-data outcome, falsifying "for any shorter series
… emits an insufficient-data message, and never raises an unhandled
failure". -/
theorem c5_counterexample :
    (load_data [⟨0, "Statewide", 1, none⟩, ⟨0, "Statewide", 2, none⟩]).map
        (fun a => (a.date, a.hh)) = exC5 ∧
    exC5.length < 24 ∧
    analyze_seasonality exC5 = SeasonalityResult.valueError ∧
    analyze_seasonality exC5 ≠ SeasonalityResult.insufficient := by decide

/-- Claim C5 as amended: for a series with unique timestamps, seasonal
decomposition is performed exactly when the gap-filled monthly series has
at least 24 observations, any shorter series yields the insufficient-data
outcome and no decomposition, and no unhandled failure is raised (the
decomposition call itself sits in a `try/except`).  A series with a
duplicated timestamp instead raises the uncaught `ValueError` of
`asfreq('MS')`, which sits outside that `try` — see
`c5_counterexample`. -/
theorem c5_seasonality_gate (rows : List (Int × ℚ))
    (h : (rows.map (fun r => r.1)).Nodup) :
    (analyze_seasonality rows = SeasonalityResult.insufficient ↔
      (asfreqInterp rows).length < 24) ∧
    (24 ≤ (asfreqInterp rows).length →
      analyze_seasonality rows = SeasonalityResult.decomposed (asfreqInterp rows)) ∧
    analyze_seasonality rows ≠ SeasonalityResult.valueError := by
  unfold analyze_seasonality
  rw [if_pos h]
  by_cases hlen : (asfreqInterp rows).length < 24
  · rw [if_pos hlen]
    exact ⟨⟨fun _ => hlen, fun _ => rfl⟩, fun hge => absurd hlen (by omega),
      fun hc => SeasonalityResult.noConfusion hc⟩
  · rw [if_neg hlen]
    exact ⟨⟨fun hc => SeasonalityResult.noConfusion hc, fun hlt => absurd hlt hlen⟩,
      fun _ => rfl, fun hc => SeasonalityResult.noConfusion hc⟩

/-- Witness for `c5_seasonality_gate`: a unique-timestamp series spanning
24 months is decomposed. -/
theorem c5_seasonality_gate_witness :
    analyze_seasonality [((0 : Int), (1 : ℚ)), (23, 1)] =
      SeasonalityResult.decomposed (asfreqInterp [((0 : Int), (1 : ℚ)), (23, 1)]) :=
  (c5_seasonality_gate [((0 : Int), (1 : ℚ)), (23, 1)] (by decide)).2.1 (by decide)

/-! ## Claim C6: final refit and 3-period future forecast -/

/-- Claim C6: the final step fits the seasonal ARIMA model on the entire
modelling series — the concatenation of the history and the 6-period
holdout used for scoring, not the history alone — and forecasts exactly the
3 months immediately after the last known observation. -/
theorem c6_final_refit (fc : List (Int × ℚ) → ℕ → List ℚ) (rows : List (Int × ℚ)) :
    run_models_final_fit_input rows =
      (train_test_split_ts (run_models_series rows) 6).1 ++
        (train_test_split_ts (run_models_series rows) 6).2 ∧
    run_models_future_forecast fc rows =
      (forecastDates (run_models_series rows) 3).zip
        (fc ((train_test_split_ts (run_models_series rows) 6).1 ++
              (train_test_split_ts (run_models_series rows) 6).2) 3) ∧
    forecastDates (run_models_series rows) 3 =
      [lastDate (run_models_series rows) + 1, lastDate (run_models_series rows) + 2,
        lastDate (run_models_series rows) + 3] := by
  refine ⟨(List.take_append_drop _ _).symm, ?_, ?_⟩
  · unfold run_models_future_forecast
    simp only [train_test_split_ts]
    rw [List.take_append_drop]
  · show (List.range 3).map (fun i => lastDate (run_models_series rows) + 1 + i) = _
    have h3 : List.range 3 = [0, 1, 2] := rfl
    rw [h3]
    simp
    omega

/-! ## Claim C9: healthy-store ratio -/

/-- Claim C9: the healthy-store ratio is `numerator / denominator` when the
denominator is strictly positive and `0` when the denominator is `0`, so a
desert tract (zero retailers) never triggers a division by zero. -/
theorem c9_healthy_ratio (numerator denominator : ℚ) :
    (0 < denominator → Healthy_Ratio numerator denominator = numerator / denominator) ∧
    (denominator = 0 → Healthy_Ratio numerator denominator = 0) := by
  constructor
  · intro h; simp [Healthy_Ratio, h]
  · intro h; simp [Healthy_Ratio, h]

/-- Witness for `c9_healthy_ratio` on a 4-store tract with 3 healthy stores
and on a desert tract. -/
theorem c9_healthy_ratio_witness :
    Healthy_Ratio 3 4 = 3 / 4 ∧ Healthy_Ratio 3 0 = 0 :=
  ⟨(c9_healthy_ratio 3 4).1 (by norm_num), (c9_healthy_ratio 3 0).2 rfl⟩

/-! ## Claim C1: sentinel-vs-sum aggregation decision -/

/-- A dataset with a sentinel row for period 0 only, and a non-sentinel
row for period 1: the claimed per-period rule would emit a summed row for
period 1, the source drops period 1 entirely. -/
def exC1 : List CleanRow :=
  [⟨0, "Statewide", 100, none⟩, ⟨0, "Alameda", 40, none⟩, ⟨1, "Alameda", 50, none⟩]

theorem exC1_load : load_data exC1 = [⟨0, 100, none⟩] := rfl

theorem exC1_claim :
    perPeriodClaimAgg exC1 = [⟨0, 100, none⟩, ⟨1, 50, some 0⟩] := by
  have h1 : perPeriodClaimAgg exC1 =
      [⟨0, 100, none⟩, ⟨1, sumHH (countyRows exC1) 1, some (sumUnemp (countyRows exC1) 1)⟩] := rfl
  rw [h1, show sumHH (countyRows exC1) 1 = 50 from add_zero 50,
    show sumUnemp (countyRows exC1) 1 = 0 from rfl]

/-- Counterexample to claim C1 as stated: on `exC1` the source's
aggregation does not implement the claimed per-period sentinel-vs-sum
rule. -/
theorem c1_counterexample : load_data exC1 ≠ perPeriodClaimAgg exC1 := by
  rw [exC1_load, exC1_claim]
  intro hcontra
  exact absurd (congrArg List.length hcontra) (by decide)

/-- Claim C1 as amended: the sentinel-vs-sum decision is made once for the
whole dataset, not per period.  If any sentinel row exists, the output is
exactly the sentinel rows sorted by date, and a period having only
non-sentinel rows is dropped rather than summed.  (Only when no sentinel
row exists anywhere is every period aggregated as a sum — that branch is
`c10_fallback_sum`.) -/
theorem c1_sentinel_global (rows : List CleanRow) (h : statewideRows rows ≠ []) :
    load_data rows = sortByDate ((statewideRows rows).map aggRowOf) ∧
    ∀ d : Int, (∀ r ∈ statewideRows rows, r.date ≠ d) →
      ∀ a ∈ load_data rows, a.date ≠ d := by
  have hne : (statewideRows rows).isEmpty = false := by
    rw [← Bool.not_eq_true, List.isEmpty_iff]; exact h
  have h1 : load_data rows = sortByDate ((statewideRows rows).map aggRowOf) := by
    simp [load_data, hne]
  refine ⟨h1, fun d hd a ha => ?_⟩
  rw [h1] at ha
  obtain ⟨r, hr, hra⟩ := List.mem_map.mp (mem_sortByDate.mp ha)
  rw [← hra]
  exact hd r hr

/-- Witness for `c1_sentinel_global` at `exC1`. -/
theorem c1_sentinel_global_witness :
    load_data exC1 = sortByDate ((statewideRows exC1).map aggRowOf) :=
  (c1_sentinel_global exC1 (by decide)).1

/-! ## Claim C7: uniqueness and monotonicity of cleaned timestamps -/

/-- Two sentinel rows sharing one period: the source keeps both, so the
aggregated series has a duplicated timestamp. -/
def exC7 : List CleanRow := [⟨0, "Statewide", 1, none⟩, ⟨0, "Statewide", 2, none⟩]

/-- Counterexample to claim C7 as stated: the aggregated series of `exC7`
does not have unique, strictly increasing timestamps. -/
theorem c7_counterexample :
    ¬ (((load_data exC7).map (fun a => a.date)).Nodup ∧
        List.Chain' (· < ·) ((load_data exC7).map (fun a => a.date))) := by
  have h1 : load_data exC7 = [⟨0, 1, none⟩, ⟨0, 2, none⟩] := rfl
  rw [h1]
  decide

/-- Claim C7 as amended: the aggregated series is always sorted by date;
its timestamps are unique and strictly increasing provided no two sentinel
rows share a period (in the fallback branch, where the sentinel is absent,
this hypothesis is vacuous and the conclusion is unconditional). -/
theorem c7_sorted_unique (rows : List CleanRow)
    (h : ((statewideRows rows).map (fun r => r.date)).Nodup) :
    ((load_data rows).map (fun a => a.date)).Nodup ∧
    List.Chain' (· < ·) ((load_data rows).map (fun a => a.date)) := by
  have key : ∀ L : List AggRow, (L.map (fun a => a.date)).Nodup →
      ((sortByDate L).map (fun a => a.date)).Nodup ∧
      List.Chain' (· < ·) ((sortByDate L).map (fun a => a.date)) := by
    intro L hnd
    have hperm : ((sortByDate L).map (fun a => a.date)).Perm (L.map (fun a => a.date)) :=
      (List.perm_insertionSort _ L).map _
    have hnd' : ((sortByDate L).map (fun a => a.date)).Nodup := hperm.nodup_iff.mpr hnd
    have hle : List.Pairwise (· ≤ ·) ((sortByDate L).map (fun a => a.date)) :=
      List.pairwise_map.mpr (List.sorted_insertionSort _ L)
    have hlt : List.Pairwise (· < ·) ((sortByDate L).map (fun a => a.date)) :=
      (hle.and hnd').imp (fun hab => lt_of_le_of_ne hab.1 hab.2)
    exact ⟨hnd', hlt.chain'⟩
  by_cases hsw : (statewideRows rows).isEmpty
  · have hld : load_data rows = sortByDate (groupSumRows (countyRows rows)) := by
      simp [load_data, hsw]
    rw [hld]
    apply key
    have hdates : (groupSumRows (countyRows rows)).map (fun a => a.date) =
        groupDates (countyRows rows) := by
      simp [groupSumRows, List.map_map, Function.comp_def]
    rw [hdates]
    exact ((List.perm_insertionSort _ _).nodup_iff).mpr (List.nodup_dedup _)
  · have hld : load_data rows = sortByDate ((statewideRows rows).map aggRowOf) := by
      simp [load_data, hsw]
    rw [hld]
    apply key
    have hdates : ((statewideRows rows).map aggRowOf).map (fun a => a.date) =
        (statewideRows rows).map (fun r => r.date) := by
      simp [List.map_map, aggRowOf]
    rw [hdates]
    exact h

/-- Witness for `c7_sorted_unique` on a dataset with two sentinel rows in
distinct periods, given out of order. -/
theorem c7_sorted_unique_witness :
    ((load_data [⟨1, "Statewide", 5, none⟩, ⟨0, "Statewide", 3, none⟩]).map
      (fun a => a.date)).Nodup :=
  (c7_sorted_unique [⟨1, "Statewide", 5, none⟩, ⟨0, "Statewide", 3, none⟩]
    (by decide)).1

/-! ## Claim C10: fallback branch sums every numeric column -/

/-- Claim C10: when no sentinel row exists anywhere in the data, every
output row of the aggregation carries, for each numeric column (households
and the unemployment rate alike), the sum over the non-sentinel rows of its
period — and every period occurring among the non-sentinel rows is
represented. -/
theorem c10_fallback_sum (rows : List CleanRow) (h : statewideRows rows = []) :
    (∀ a ∈ load_data rows,
        a.hh = sumHH (countyRows rows) a.date ∧
        a.unemp = some (sumUnemp (countyRows rows) a.date)) ∧
    (∀ r ∈ countyRows rows, ∃ a ∈ load_data rows, a.date = r.date) := by
  have hsw : (statewideRows rows).isEmpty = true := List.isEmpty_iff.mpr h
  have hld : load_data rows = sortByDate (groupSumRows (countyRows rows)) := by
    simp [load_data, hsw]
  constructor
  · intro a ha
    rw [hld] at ha
    obtain ⟨d, _, hda⟩ := List.mem_map.mp (mem_sortByDate.mp ha)
    rw [← hda]
    exact ⟨rfl, rfl⟩
  · intro r hr
    refine ⟨⟨r.date, sumHH (countyRows rows) r.date, some (sumUnemp (countyRows rows) r.date)⟩,
      ?_, rfl⟩
    rw [hld]
    apply mem_sortByDate.mpr
    apply List.mem_map.mpr
    refine ⟨r.date, ?_, rfl⟩
    unfold groupDates
    apply ((List.perm_insertionSort _ _).mem_iff).mpr
    rw [List.mem_dedup]
    exact List.mem_map.mpr ⟨r, hr, rfl⟩

/-- Two counties in one period, no sentinel row anywhere. -/
def exC10 : List CleanRow := [⟨0, "Alameda", 2, some 1⟩, ⟨0, "Contra Costa", 3, none⟩]

theorem exC10_load : load_data exC10 = [⟨0, 5, some 1⟩] := by
  have h1 : load_data exC10 =
      [⟨0, sumHH (countyRows exC10) 0, some (sumUnemp (countyRows exC10) 0)⟩] := rfl
  have h2 : sumHH (countyRows exC10) 0 = 5 := by
    show (2 : ℚ) + (3 + 0) = 5
    norm_num
  have h3 : sumUnemp (countyRows exC10) 0 = 1 := by
    show (1 : ℚ) + 0 = 1
    norm_num
  rw [h1, h2, h3]

/-- Witness for `c10_fallback_sum` at `exC10`: the households column is
summed, and so is the unemployment-rate column (`NaN` skipped). -/
theorem c10_fallback_sum_witness :
    (AggRow.mk 0 5 (some 1)).hh = sumHH (countyRows exC10) (AggRow.mk 0 5 (some 1)).date ∧
    (AggRow.mk 0 5 (some 1)).unemp =
      some (sumUnemp (countyRows exC10) (AggRow.mk 0 5 (some 1)).date) :=
  (c10_fallback_sum exC10 (by decide)).1 ⟨0, 5, some 1⟩ (by
    rw [exC10_load]; exact List.mem_singleton_self _)

/-! ## Claim C8: text-cell cleaning -/

theorem dropWhile_idem {α : Type} (p : α → Bool) (l : List α) :
    (l.dropWhile p).dropWhile p = l.dropWhile p := by
  induction l with
  | nil => rfl
  | cons a t ih =>
    by_cases hpa : p a
    · simp [List.dropWhile_cons, hpa, ih]
    · simp [List.dropWhile_cons, hpa]

theorem dropLeftWs_idem (l : List Char) : dropLeftWs (dropLeftWs l) = dropLeftWs l :=
  dropWhile_idem isWsChar l

theorem dropRightWs_idem (l : List Char) : dropRightWs (dropRightWs l) = dropRightWs l := by
  unfold dropRightWs
  rw [List.reverse_reverse, dropWhile_idem]

theorem dropRightWs_cons (a : Char) (t : List Char) :
    dropRightWs (a :: t) =
      if dropRightWs t = [] then (if isWsChar a then [] else [a])
      else a :: dropRightWs t := by
  unfold dropRightWs
  rw [List.reverse_cons, List.dropWhile_append]
  by_cases h : t.reverse.dropWhile isWsChar = []
  · by_cases hwa : isWsChar a <;> simp [h, hwa, List.dropWhile_cons]
  · simp [h]

theorem dropRight_dropLeft_comm (l : List Char) :
    dropRightWs (dropLeftWs l) = dropLeftWs (dropRightWs l) := by
  induction l with
  | nil => rfl
  | cons a t ih =>
    by_cases hws : isWsChar a
    · rw [show dropLeftWs (a :: t) = dropLeftWs t by
        simp [dropLeftWs, List.dropWhile_cons, hws]]
      rw [ih, dropRightWs_cons]
      by_cases h0 : dropRightWs t = []
      · simp [h0, hws, dropLeftWs]
      · simp [h0, dropLeftWs, List.dropWhile_cons, hws]
    · rw [show dropLeftWs (a :: t) = a :: t by
        simp [dropLeftWs, List.dropWhile_cons, hws]]
      rw [dropRightWs_cons]
      by_cases h0 : dropRightWs t = []
      · simp [h0, hws, dropLeftWs, List.dropWhile_cons]
      · simp [h0, hws, dropLeftWs, List.dropWhile_cons]

theorem trimWs_trimWs (l : List Char) : trimWs (trimWs l) = trimWs l := by
  unfold trimWs
  rw [dropRight_dropLeft_comm, dropRightWs_idem, dropLeftWs_idem]

theorem trimWs_dropRightWs (l : List Char) : trimWs (dropRightWs l) = trimWs l := by
  unfold trimWs
  rw [dropRightWs_idem]

/-- Claim C8: for every text cell, the cleaned value is exactly the numeric
parse of the cell with thousands separators, asterisks, percent signs and
trailing whitespace removed — e.g. `"1,234%"` cleans to `1234` — and a cell
that still fails to parse becomes missing (`none`), e.g. `"N/A"`. -/
theorem c8_clean_numeric_cell (l : List Char) :
    cleanNumericCell l = specCleanNumericCell l ∧
    cleanNumericCell "1,234%".data = some 1234 ∧
    cleanNumericCell "N/A".data = none := by
  refine ⟨?_, rfl, rfl⟩
  unfold cleanNumericCell specCleanNumericCell toNumeric
  rw [trimWs_trimWs, trimWs_dropRightWs]

/-! ## Claim C2: spike flag is exactly z-score > 2 -/

theorem sampleVarQ_nonneg (l : List ℚ) : 0 ≤ sampleVarQ l := by
  rcases l with _ | ⟨a, t⟩
  · simp [sampleVarQ, meanQ]
  · unfold sampleVarQ
    apply div_nonneg
    · apply List.sum_nonneg
      intro x hx
      obtain ⟨c, _, rfl⟩ := List.mem_map.mp hx
      positivity
    · have hlen : (1 : ℚ) ≤ ((a :: t).length : ℚ) := by
        have h1 : 1 ≤ (a :: t).length := by simp
        exact_mod_cast h1
      linarith

/-- The decidable spike test agrees with the source's real-valued test
`(c - mean) / std > 2`, `std` being the square root of the (sample)
variance. -/
theorem zscoreExceeds2_iff (c m v : ℚ) (hv : 0 ≤ v) :
    zscoreExceeds2 c m v = true ↔
      2 < ((c : ℝ) - (m : ℝ)) / Real.sqrt ((v : ℝ)) := by
  unfold zscoreExceeds2
  simp only [Bool.and_eq_true, decide_eq_true_eq]
  rcases eq_or_lt_of_le hv with hv0 | hvpos
  · constructor
    · rintro ⟨⟨h0, -⟩, -⟩
      rw [← hv0] at h0
      exact absurd h0 (lt_irrefl 0)
    · intro hgt
      rw [← hv0] at hgt
      norm_num [Real.sqrt_zero] at hgt
  · have hvr : (0 : ℝ) < (v : ℝ) := by exact_mod_cast hvpos
    have hs : 0 < Real.sqrt (v : ℝ) := Real.sqrt_pos.mpr hvr
    have hsq : Real.sqrt (v : ℝ) ^ 2 = (v : ℝ) := Real.sq_sqrt (le_of_lt hvr)
    rw [lt_div_iff hs]
    constructor
    · rintro ⟨⟨-, hcm⟩, hlt⟩
      have hcmr : (0 : ℝ) < (c : ℝ) - (m : ℝ) := by exact_mod_cast hcm
      have hltr : 4 * (v : ℝ) < ((c : ℝ) - (m : ℝ)) ^ 2 := by exact_mod_cast hlt
      by_contra hle
      push_neg at hle
      have hsqle : ((c : ℝ) - (m : ℝ)) ^ 2 ≤ (2 * Real.sqrt (v : ℝ)) ^ 2 :=
        pow_le_pow_left (le_of_lt hcmr) hle 2
      nlinarith [hsq]
    · intro hgt
      have hcmr : (0 : ℝ) < (c : ℝ) - (m : ℝ) := lt_trans (by positivity) hgt
      refine ⟨⟨hvpos, by exact_mod_cast hcmr⟩, ?_⟩
      have h2s : (2 * Real.sqrt (v : ℝ)) ^ 2 < ((c : ℝ) - (m : ℝ)) ^ 2 :=
        pow_lt_pow_left hgt (by positivity) (by norm_num)
      have h4 : 4 * (v : ℝ) < ((c : ℝ) - (m : ℝ)) ^ 2 := by nlinarith [hsq]
      exact_mod_cast h4

/-- Claim C2: a period is flagged as a spike exactly when its
month-over-month change exists (every period but the first has one) and
the z-score of that change — mean and standard deviation taken over the
entire change series, candidate included — strictly exceeds 2; no other
period is flagged. -/
theorem c2_spike_iff_zscore (l : List ℚ) (t : ℕ) :
    t ∈ analyze_spikes l ↔
      ∃ c, momChangeAt l t = some c ∧
        2 < (((c : ℝ) - ((meanQ (mom_changes l) : ℚ) : ℝ)) /
              Real.sqrt (((sampleVarQ (mom_changes l) : ℚ) : ℝ))) := by
  unfold analyze_spikes
  simp only [List.mem_map, List.mem_filter]
  constructor
  · rintro ⟨⟨i, c⟩, ⟨hmem, hflag⟩, ht⟩
    have ht' : i + 1 = t := ht
    have hflag' : zscoreExceeds2 c (meanQ (mom_changes l)) (sampleVarQ (mom_changes l)) = true :=
      hflag
    have hget : (mom_changes l)[i]? = some c := List.mem_enum_iff_getElem?.mp hmem
    refine ⟨c, ?_, ?_⟩
    · unfold momChangeAt
      rw [if_neg (by omega), show t - 1 = i by omega]
      exact hget
    · exact (zscoreExceeds2_iff c (meanQ (mom_changes l)) (sampleVarQ (mom_changes l))
        (sampleVarQ_nonneg _)).mp hflag'
  · rintro ⟨c, hc, hz⟩
    unfold momChangeAt at hc
    by_cases ht : t = 0
    · rw [ht] at hc
      simp at hc
    · rw [if_neg ht] at hc
      refine ⟨⟨t - 1, c⟩, ⟨List.mem_enum_iff_getElem?.mpr hc, ?_⟩, by show t - 1 + 1 = t; omega⟩
      exact (zscoreExceeds2_iff c (meanQ (mom_changes l)) (sampleVarQ (mom_changes l))
        (sampleVarQ_nonneg _)).mpr hz

end FoodBank
